import Mathlib

/-!
Verification development for the santas-sweetBot conversational data-collection
agent.  The Python sources under `src/` are shallowly embedded: each service
method becomes a Lean function, mutable objects become explicit state passing,
Python dictionaries become association lists, `datetime.now()` becomes an
explicit `now : Nat` argument, and the two OpenAI network calls become an
oracle value (`LLMEnv`) supplied per message: `none` models the API call
raising, `some s` models it returning the text `s`.
-/

namespace SweetBot

/-- A Python `Dict[str, str]` as an insertion-ordered association list. -/
abbrev Dict := List (String × String)

/-- `d[k]` lookup: first binding of `k`, if any. -/
def dictGet (d : Dict) (k : String) : Option String :=
  match d with
  | [] => none
  | (k', v) :: rest => if k' = k then some v else dictGet rest k

/-- Python truthiness of an `Optional[str]`: `None` and `""` are falsy,
every other string (whitespace-only included) is truthy. -/
def truthy : Option String → Bool
  | none => false
  | some s => !(s = "")

/-! ## Python string splitting (models `str.split(sep)` for non-empty `sep`) -/

/-- Scan `xs` for the first occurrence of `sep`; return the characters before
it and, when found, the characters after it. -/
def takeUntilSep (sep : List Char) : List Char → List Char × Option (List Char)
  | [] => ([], none)
  | c :: rest =>
    if sep.isPrefixOf (c :: rest) then ([], some ((c :: rest).drop sep.length))
    else
      let r := takeUntilSep sep rest
      (c :: r.1, r.2)

/-- Fuelled worker for `pySplit`; fuel `length + 1` always suffices for a
non-empty separator because each found occurrence consumes characters. -/
def pySplitAux (sep : List Char) : Nat → List Char → List (List Char)
  | 0, xs => [xs]
  | fuel + 1, xs =>
    match takeUntilSep sep xs with
    | (a, none) => [a]
    | (a, some rest) => a :: pySplitAux sep fuel rest

/-- Python `s.split(sep)` for a non-empty separator. -/
def pySplit (sep s : String) : List String :=
  (pySplitAux sep.data (s.data.length + 1) s.data).map String.mk

/-- Python `sub in s` (substring containment). -/
def pyContains (sub s : String) : Bool :=
  (takeUntilSep sub.data s.data).2.isSome

/-- `ai_response.split(openTag)[1].split(closeTag)[0]`: the verbatim text
between the first `openTag` and the next `closeTag` (or next `openTag` / end
of string).  Mirrors `OpenAIService._parse_ai_response`'s split chains. -/
def extractTag (openTag closeTag s : String) : String :=
  ((pySplit closeTag ((pySplit openTag s).getD 1 "")).getD 0 "")

/-- `OpenAIService._parse_ai_response`: build the extracted-info dict.  A key
is present exactly when its open tag occurs in the raw text; the value is the
split-chain result, **not** trimmed. -/
def parse_ai_response (ai : String) : Dict :=
  let d : Dict := []
  let d := if pyContains "<user_name>" ai then
      d ++ [("name", extractTag "<user_name>" "</user_name>" ai)] else d
  let d := if pyContains "<user_city>" ai then
      d ++ [("city", extractTag "<user_city>" "</user_city>" ai)] else d
  let d := if pyContains "<user_address>" ai then
      d ++ [("address", extractTag "<user_address>" "</user_address>" ai)] else d
  d

/-! ## `BackendService.parse_user_data` (regex-based, trimming parser) -/

/-- `re.search(r'<open>(.*?)</close>', data, re.DOTALL)` for literal tags:
leftmost match start, lazy body.  Scans open-tag occurrences left to right and
returns the text up to the first close tag after the first viable open tag. -/
def reSearchTagAux (openTag closeTag : List Char) : Nat → List Char → Option (List Char)
  | 0, _ => none
  | fuel + 1, xs =>
    match (takeUntilSep openTag xs).2 with
    | none => none
    | some rest =>
      match takeUntilSep closeTag rest with
      | (body, some _) => some body
      | (_, none) => reSearchTagAux openTag closeTag fuel rest

/-- Regex tag search on strings. -/
def reSearchTag (openTag closeTag s : String) : Option String :=
  (reSearchTagAux openTag.data closeTag.data (s.data.length + 1) s.data).map String.mk

/-- Python `str.strip()`: drop leading and trailing whitespace characters. -/
def pyStrip (s : String) : String :=
  String.mk ((s.data.dropWhile Char.isWhitespace).reverse.dropWhile Char.isWhitespace).reverse

/-- Result of `BackendService.parse_user_data`: all three keys always present,
initialised to `None`. -/
structure ParsedUserData where
  name : Option String
  city : Option String
  address : Option String
deriving Repr, DecidableEq

/-- `BackendService.parse_user_data`: regex extraction with `.strip()` applied
to each matched body. -/
def parse_user_data (data : String) : ParsedUserData :=
  { name := (reSearchTag "<user_name>" "</user_name>" data).map pyStrip
    city := (reSearchTag "<user_city>" "</user_city>" data).map pyStrip
    address := (reSearchTag "<user_address>" "</user_address>" data).map pyStrip }

/-! ## Data model (`models/user.py`) -/

/-- `UserMessage`: one conversation-history entry. -/
structure UserMessage where
  text : String
  timestamp : Nat
  is_from_user : Bool
deriving Repr, DecidableEq

/-- The identity payload of a Telegram user object, restricted to the
attributes the code reads. -/
structure TelegramUser where
  id : Int
  username : Option String
  first_name : Option String
  last_name : Option String
  language_code : Option String
  is_bot : Bool
deriving Repr, DecidableEq

/-- `User`: per-user record with Telegram identity, the three delivery fields
and the conversation history. -/
structure User where
  id : Int
  username : Option String
  first_name : Option String
  last_name : Option String
  language_code : Option String
  is_bot : Bool
  final_name : Option String
  final_city : Option String
  final_address : Option String
  conversation_history : List UserMessage
  created_at : Nat
  last_interaction : Nat
deriving Repr, DecidableEq

/-- `User.is_configured`: `all([final_name, final_city, final_address])`,
i.e. every field truthy (non-`None`, non-empty). -/
def User.is_configured (u : User) : Bool :=
  truthy u.final_name && truthy u.final_city && truthy u.final_address

/-- `User.add_message`: append to history and refresh `last_interaction`. -/
def User.add_message (u : User) (text : String) (fromUser : Bool) (now : Nat) : User :=
  { u with conversation_history := u.conversation_history ++ [⟨text, now, fromUser⟩]
           last_interaction := now }

/-- `User.update_from_telegram`: refresh identity attributes from the Telegram
object and touch `last_interaction`. -/
def User.update_from_telegram (u : User) (t : TelegramUser) (now : Nat) : User :=
  { u with username := t.username
           first_name := t.first_name
           last_name := t.last_name
           language_code := t.language_code
           is_bot := t.is_bot
           last_interaction := now }

/-- `User.get_missing_fields`: names of falsy fields in fixed order. -/
def User.get_missing_fields (u : User) : List String :=
  (if truthy u.final_name then [] else ["name"]) ++
  (if truthy u.final_city then [] else ["city"]) ++
  (if truthy u.final_address then [] else ["address"])

/-! ## Session store (`services/user_service.py`) -/

/-- `UserService.users`: an insertion-ordered `Dict[int, User]`. -/
abbrev Store := List (Int × User)

/-- `UserService.get_user` / `users.get(user_id)`. -/
def get_user : Store → Int → Option User
  | [], _ => none
  | (k, v) :: rest, uid => if k = uid then some v else get_user rest uid

/-- `users[user_id] = u`: replace the binding in place, or append. -/
def store_set : Store → Int → User → Store
  | [], uid, u => [(uid, u)]
  | (k, v) :: rest, uid, u =>
    if k = uid then (k, u) :: rest else (k, v) :: store_set rest uid u

/-- `UserService.create_user`: fresh record from the Telegram object, fields
unset, history empty; stored under the Telegram id. -/
def create_user (t : TelegramUser) (now : Nat) : User :=
  { id := t.id
    username := t.username
    first_name := t.first_name
    last_name := t.last_name
    language_code := t.language_code
    is_bot := t.is_bot
    final_name := none
    final_city := none
    final_address := none
    conversation_history := []
    created_at := now
    last_interaction := now }

/-- `UserService.get_or_create_user`: fetch and refresh identity, or create. -/
def get_or_create_user (s : Store) (t : TelegramUser) (now : Nat) : Store × User :=
  match get_user s t.id with
  | none =>
    let u := create_user t now
    (store_set s t.id u, u)
  | some u =>
    let u1 := u.update_from_telegram t now
    (store_set s t.id u1, u1)

/-- `UserService.update_user_data` on one field: overwrite exactly when the
key is present with a truthy (non-empty) value. -/
def applyField (cur : Option String) (newVal : Option String) : Option String :=
  match newVal with
  | some v => if v = "" then cur else some v
  | none => cur

/-- `UserService.update_user_data` on a fetched user: each of the three fields
is overwritten iff `new_data` holds a truthy value under its key. -/
def update_user_data (u : User) (d : Dict) : User :=
  { u with final_name := applyField u.final_name (dictGet d "name")
           final_city := applyField u.final_city (dictGet d "city")
           final_address := applyField u.final_address (dictGet d "address") }

/-- Store-level `UserService.update_user_data` (returns the store; the code
logs and returns `None` when the user is missing). -/
def service_update_user_data (s : Store) (uid : Int) (d : Dict) : Store :=
  match get_user s uid with
  | none => s
  | some u => store_set s uid (update_user_data u d)

/-- Store-level `UserService.add_message`. -/
def service_add_message (s : Store) (uid : Int) (text : String) (fromUser : Bool)
    (now : Nat) : Store :=
  match get_user s uid with
  | none => s
  | some u => store_set s uid (u.add_message text fromUser now)

/-! ## OpenAI service (`services/openai_service.py`)

The two network calls are modelled by an oracle supplied with each inbound
message: `none` means the API call raised, `some s` means it returned text
`s`.  The prompts built from the conversation context only influence what the
external model answers, so they need no embedding. -/

/-- Oracle outcomes of the two OpenAI calls made while handling one message. -/
structure LLMEnv where
  extraction : Option String
  composition : Option String
deriving Repr, DecidableEq

/-- `OpenAIService.get_user_info_from_context`: on API failure the exception
is caught and `{}` is returned; on success the raw text is parsed. -/
def get_user_info_from_context (env : LLMEnv) : Dict :=
  match env.extraction with
  | none => []
  | some raw => parse_ai_response raw

/-- The fixed apology returned when reply composition fails. -/
def compositionErrorMessage : String :=
  "Извините, произошла ошибка при обработке вашего сообщения. Пожалуйста, повторите попытку позже."

/-- `OpenAIService.process_user_message`: the composed reply, or the fixed
apology when the API call raised. -/
def openai_process_user_message (env : LLMEnv) : String :=
  match env.composition with
  | none => compositionErrorMessage
  | some reply => reply

/-! ## Message flow (`services/message_service.py`) -/

/-- The generic failure message sent when the user record is missing. -/
def supportErrorMessage : String :=
  "Ой, на сервере произошла ошибка... Напишите нам в поддержку на redmoon.thebest@gmail.com"

/-- `MessageService._get_complete_info_message`: completion confirmation
templated from the known fields (`None` rendered as `""`). -/
def complete_info_message (u : User) : String :=
  let name := u.final_name.getD ""
  let city := u.final_city.getD ""
  let address := u.final_address.getD ""
  "Отлично! 🎉 Спасибо за предоставленную информацию, " ++ name ++ "!\n\n" ++
  "Ваш заказ будет доставлен по адресу:\n" ++
  "🏙️ Город: " ++ city ++ "\n" ++
  "🏠 Адрес: " ++ address ++ "\n\n" ++
  "Мы уже начали готовить ваше мороженое к отправке! Оно будет упаковано в специальный термоконтейнер, чтобы минимизировать риск таяния. ❄️\n\n" ++
  "Если у вас возникнут вопросы о статусе заказа, пожалуйста, используйте команду /restart, чтобы начать новый диалог с нами.\n\n" ++
  "Спасибо за выбор нашего мороженого! 🍦\n\n" ++
  "P.S. Это задание выполнено в рамках творческой работы для Ковалева Игоря Петровича."

/-- `UserService.format_for_backend`: the finalize payload. -/
def format_for_backend (s : Store) (uid : Int) : String :=
  match get_user s uid with
  | none => ""
  | some u =>
    (if truthy u.final_name then "<user_name>" ++ u.final_name.getD "" ++ "</user_name>\n" else "") ++
    (if truthy u.final_city then "<user_city>" ++ u.final_city.getD "" ++ "</user_city>\n" else "") ++
    (if truthy u.final_address then "<user_address>" ++ u.final_address.getD "" ++ "</user_address>" else "")

/-- Result of handling one inbound message: the updated store, the outbound
text, and whether the backend finalize hand-off (`send_user_data`) fired. -/
structure StepResult where
  store : Store
  response : String
  finalized : Bool
deriving Repr, DecidableEq

/-- `MessageService._handle_unconfigured_user`: extract (fail-open), merge if
anything was extracted, then finalize-and-confirm or compose a reply. -/
def handle_unconfigured (env : LLMEnv) (s : Store) (uid : Int) : Store × String × Bool :=
  match get_user s uid with
  | none => (s, supportErrorMessage, false)
  | some user =>
    let extracted := get_user_info_from_context env
    let afterUpdate : Store × Option User :=
      if extracted ≠ [] then
        let s1 := service_update_user_data s uid extracted
        (s1, get_user s1 uid)
      else (s, some user)
    match afterUpdate.2 with
    | none => (afterUpdate.1, supportErrorMessage, false)
    | some user1 =>
      if user1.is_configured then
        (afterUpdate.1, complete_info_message user1, true)
      else
        (afterUpdate.1, openai_process_user_message env, false)

/-- `MessageService.process_user_message`: the main entry point for one
inbound message. -/
def process_user_message (env : LLMEnv) (now : Nat) (s : Store) (uid : Int)
    (text : String) : StepResult :=
  match get_user s uid with
  | none => ⟨s, supportErrorMessage, false⟩
  | some user =>
    let s1 := service_add_message s uid text true now
    if user.is_configured then
      let response := complete_info_message user
      ⟨service_add_message s1 uid response false now, response, false⟩
    else
      let hr := handle_unconfigured env s1 uid
      ⟨service_add_message hr.1 uid hr.2.1 false now, hr.2.1, hr.2.2⟩

/-! ## Multi-message traces -/

/-- One inbound message event: the oracle outcomes, the clock, the text. -/
structure MsgEvent where
  env : LLMEnv
  now : Nat
  text : String
deriving Repr, DecidableEq

/-- Final store after processing a sequence of inbound messages for `uid`. -/
def runTrace (s : Store) (uid : Int) : List MsgEvent → Store
  | [] => s
  | e :: rest => runTrace (process_user_message e.env e.now s uid e.text).store uid rest

/-- The outbound texts returned along a trace, in order. -/
def traceResponses (s : Store) (uid : Int) : List MsgEvent → List String
  | [] => []
  | e :: rest =>
    let r := process_user_message e.env e.now s uid e.text
    r.response :: traceResponses r.store uid rest

/-- How many steps of the trace fired the backend finalize hand-off. -/
def countFinalize (s : Store) (uid : Int) : List MsgEvent → Nat
  | [] => 0
  | e :: rest =>
    let r := process_user_message e.env e.now s uid e.text
    (if r.finalized then 1 else 0) + countFinalize r.store uid rest

/-! ## Step characterization

`process_user_message` only reads and writes the record stored under `uid`,
so it factors through a per-user step function.  The lemmas below establish
that factoring; every claim about the flow is then proved on `step_user`. -/

/-- Everything one message does to the addressed user, as a pure function:
the updated record, the outbound text, and the finalize flag. -/
def step_user (env : LLMEnv) (now : Nat) (text : String) (u : User) :
    User × String × Bool :=
  let u1 := u.add_message text true now
  if u.is_configured then
    (u1.add_message (complete_info_message u) false now, complete_info_message u, false)
  else
    let extracted := get_user_info_from_context env
    let u2 := if extracted ≠ [] then update_user_data u1 extracted else u1
    if u2.is_configured then
      (u2.add_message (complete_info_message u2) false now, complete_info_message u2, true)
    else
      (u2.add_message (openai_process_user_message env) false now,
       openai_process_user_message env, false)

/-- Whether the record under `uid` is complete (missing records count as
incomplete). -/
def confAt (s : Store) (uid : Int) : Bool :=
  match get_user s uid with
  | none => false
  | some u => u.is_configured

/-- The history entries a trace should append: user entry then system entry
per message, in submission order. -/
def historyOf : List MsgEvent → List String → List UserMessage
  | e :: tr, r :: rs => ⟨e.text, e.now, true⟩ :: ⟨r, e.now, false⟩ :: historyOf tr rs
  | _, _ => []

/-- Invariant on one stored delivery field: unset, or set to a non-empty
string. -/
def fieldInv (o : Option String) : Prop := ∀ v, o = some v → v ≠ ""

/-- All three delivery fields satisfy `fieldInv`. -/
def userFieldsInv (u : User) : Prop :=
  fieldInv u.final_name ∧ fieldInv u.final_city ∧ fieldInv u.final_address

/-! ## Concrete sample data used by witnesses and counterexamples -/

/-- A sample Telegram identity. -/
def annaTg : TelegramUser :=
  { id := 1, username := some "anna", first_name := some "Anna", last_name := none,
    language_code := some "ru", is_bot := false }

/-- The same identity with a changed username and bot flag. -/
def annaTg2 : TelegramUser :=
  { id := 1, username := some "anna2", first_name := some "Anna", last_name := some "B",
    language_code := some "en", is_bot := true }

/-- A freshly created record: no fields, empty history. -/
def freshAnna : User := create_user annaTg 0

/-- A record with all three delivery fields set. -/
def completeAnna : User :=
  { freshAnna with final_name := some "Anna", final_city := some "Oslo",
                   final_address := some "Storgata 1" }

/-- Oracle: extraction finds name and city, composition succeeds. -/
def envNameCity : LLMEnv :=
  ⟨some "<user_name>Anna</user_name>\n<user_city>Oslo</user_city>", some "And the address?"⟩

/-- Oracle: extraction finds the address. -/
def envAddress : LLMEnv :=
  ⟨some "<user_address>Storgata 1</user_address>", some "Thanks!"⟩

/-- Oracle: extraction succeeds but finds nothing. -/
def envNoTags : LLMEnv := ⟨some "no tags here", some "Please tell me more"⟩

/-- Oracle: both OpenAI calls raise. -/
def envFail : LLMEnv := ⟨none, none⟩

/-- Oracle: extraction returns a whitespace-only city tag body. -/
def envCitySpaces : LLMEnv := ⟨some "<user_city>  </user_city>", some "ok"⟩

/-- A three-message trace that completes the record on its second step. -/
def sampleTrace : List MsgEvent :=
  [⟨envNameCity, 1, "I am Anna from Oslo"⟩, ⟨envAddress, 2, "Storgata 1"⟩,
   ⟨envNoTags, 3, "thanks"⟩]

/-- An update dict with one truthy key, one empty value and one foreign key. -/
def mergeDict : Dict := [("name", "Bob"), ("city", ""), ("junk", "x")]

/-- `mergeDict` with the foreign key changed and reordered. -/
def mergeDict2 : Dict := [("junk", "y"), ("name", "Bob"), ("city", "")]

theorem get_store_set_same (s : Store) (uid : Int) (u : User) :
    get_user (store_set s uid u) uid = some u := by
  induction s with
  | nil => simp [store_set, get_user]
  | cons p rest ih =>
    obtain ⟨k, v⟩ := p
    by_cases h : k = uid <;> simp [store_set, get_user, h, ih]

theorem get_store_set_other (s : Store) (uid k : Int) (u : User) (h : k ≠ uid) :
    get_user (store_set s uid u) k = get_user s k := by
  induction s with
  | nil => simp [store_set, get_user, Ne.symm h]
  | cons p rest ih =>
    obtain ⟨k', v⟩ := p
    by_cases hk : k' = uid
    · subst hk
      have hne : ¬k' = k := fun hh => h hh.symm
      simp [store_set, get_user, hne]
    · simp only [store_set, if_neg hk]
      by_cases hk2 : k' = k <;> simp [get_user, hk2, ih]

theorem store_set_collapse (s : Store) (uid : Int) (a b : User) :
    store_set (store_set s uid a) uid b = store_set s uid b := by
  induction s with
  | nil => simp [store_set]
  | cons p rest ih =>
    obtain ⟨k, v⟩ := p
    by_cases h : k = uid <;> simp [store_set, h, ih]

/-- `process_user_message` factors through `step_user`: when the user is
missing the store is untouched, otherwise the record under `uid` is replaced
by the stepped record. -/
theorem process_eq_step (env : LLMEnv) (now : Nat) (s : Store) (uid : Int)
    (text : String) :
    process_user_message env now s uid text =
      match get_user s uid with
      | none => ⟨s, supportErrorMessage, false⟩
      | some u =>
        ⟨store_set s uid (step_user env now text u).1,
         (step_user env now text u).2.1, (step_user env now text u).2.2⟩ := by
  cases hu : get_user s uid with
  | none => simp [process_user_message, hu]
  | some u =>
    by_cases hc : u.is_configured
    · simp [process_user_message, hu, service_add_message, step_user, hc,
        get_store_set_same, store_set_collapse]
    · by_cases he : get_user_info_from_context env = []
      · by_cases hc2 : (u.add_message text true now).is_configured <;>
          simp [process_user_message, hu, service_add_message, step_user,
            handle_unconfigured, service_update_user_data, hc, he, hc2,
            get_store_set_same, store_set_collapse]
      · by_cases hc2 : (update_user_data (u.add_message text true now)
            (get_user_info_from_context env)).is_configured <;>
          simp [process_user_message, hu, service_add_message, step_user,
            handle_unconfigured, service_update_user_data, hc, he, hc2,
            get_store_set_same, store_set_collapse]

/-! ## Field and completeness lemmas -/

@[simp]
theorem add_message_final_name (u : User) (t : String) (f : Bool) (n : Nat) :
    (u.add_message t f n).final_name = u.final_name := rfl

@[simp]
theorem add_message_final_city (u : User) (t : String) (f : Bool) (n : Nat) :
    (u.add_message t f n).final_city = u.final_city := rfl

@[simp]
theorem add_message_final_address (u : User) (t : String) (f : Bool) (n : Nat) :
    (u.add_message t f n).final_address = u.final_address := rfl

@[simp]
theorem add_message_is_configured (u : User) (t : String) (f : Bool) (n : Nat) :
    (u.add_message t f n).is_configured = u.is_configured := rfl

@[simp]
theorem update_user_data_final_name (u : User) (d : Dict) :
    (update_user_data u d).final_name = applyField u.final_name (dictGet d "name") := rfl

@[simp]
theorem update_user_data_final_city (u : User) (d : Dict) :
    (update_user_data u d).final_city = applyField u.final_city (dictGet d "city") := rfl

@[simp]
theorem update_user_data_final_address (u : User) (d : Dict) :
    (update_user_data u d).final_address = applyField u.final_address (dictGet d "address") := rfl

/-- Overwriting never falsifies truthiness: a truthy field stays truthy. -/
theorem truthy_applyField (cur v : Option String) (h : truthy cur = true) :
    truthy (applyField cur v) = true := by
  cases v with
  | none => exact h
  | some s =>
    by_cases hs : s = ""
    · simpa [applyField, hs] using h
    · simp [applyField, truthy, hs]

/-- The merge never unsets a set field. -/
theorem applyField_ne_none (cur v : Option String) (h : cur ≠ none) :
    applyField cur v ≠ none := by
  cases v with
  | none => exact h
  | some s =>
    by_cases hs : s = "" <;> simp [applyField, hs, h]

/-- A complete record stays complete through `update_user_data`. -/
theorem update_preserves_configured (u : User) (d : Dict)
    (h : u.is_configured = true) : (update_user_data u d).is_configured = true := by
  simp only [User.is_configured, Bool.and_eq_true] at h ⊢
  exact ⟨⟨truthy_applyField _ _ h.1.1, truthy_applyField _ _ h.1.2⟩,
    truthy_applyField _ _ h.2⟩

/-- Appending a history message before the merge does not change whether the
merged record is complete. -/
theorem update_add_message_is_configured (u : User) (d : Dict) (t : String)
    (f : Bool) (n : Nat) :
    (update_user_data (u.add_message t f n) d).is_configured =
      (update_user_data u d).is_configured := by
  simp [User.is_configured]

/-- Merging an empty extraction leaves every field, hence completeness,
unchanged. -/
theorem update_nil_is_configured (u : User) :
    (update_user_data u []).is_configured = u.is_configured := rfl

/-- A complete record stays complete through one message step. -/
theorem step_preserves_configured (env : LLMEnv) (now : Nat) (text : String)
    (u : User) (h : u.is_configured = true) :
    (step_user env now text u).1.is_configured = true := by
  simp [step_user, h]

/-- The finalize flag of one step is exactly "was incomplete before and is
complete after". -/
theorem step_finalized_iff (env : LLMEnv) (now : Nat) (text : String) (u : User) :
    (step_user env now text u).2.2 =
      (!u.is_configured && (step_user env now text u).1.is_configured) := by
  by_cases hc : u.is_configured
  · simp [step_user, hc]
  · by_cases he : get_user_info_from_context env = []
    · by_cases hc2 : (u.add_message text true now).is_configured <;>
        simp [step_user, hc, he, hc2]
    · by_cases hc2 : (update_user_data (u.add_message text true now)
          (get_user_info_from_context env)).is_configured <;>
        simp [step_user, hc, he, hc2]

/-! ## Trace lemmas -/

/-- A present record is still present after one step, and it is the stepped
record. -/
theorem get_user_after_process (env : LLMEnv) (now : Nat) (s : Store) (uid : Int)
    (text : String) (u : User) (hu : get_user s uid = some u) :
    get_user (process_user_message env now s uid text).store uid =
      some (step_user env now text u).1 := by
  rw [process_eq_step, hu]
  exact get_store_set_same s uid _

/-- A present record is still present after a whole trace. -/
theorem get_user_after_runTrace (s : Store) (uid : Int) (tr : List MsgEvent)
    (u : User) (hu : get_user s uid = some u) :
    ∃ u', get_user (runTrace s uid tr) uid = some u' := by
  induction tr generalizing s u with
  | nil => exact ⟨u, hu⟩
  | cons e rest ih =>
    exact ih _ _ (get_user_after_process e.env e.now s uid e.text u hu)

/-- Completeness is monotone along any trace. -/
theorem configured_runTrace_mono (s : Store) (uid : Int) (tr : List MsgEvent)
    (u : User) (hu : get_user s uid = some u) (hc : u.is_configured = true) :
    ∃ u', get_user (runTrace s uid tr) uid = some u' ∧ u'.is_configured = true := by
  induction tr generalizing s u with
  | nil => exact ⟨u, hu, hc⟩
  | cons e rest ih =>
    exact ih _ _ (get_user_after_process e.env e.now s uid e.text u hu)
      (step_preserves_configured e.env e.now e.text u hc)

/-- The finalize hand-off count along a trace: zero when the record starts
complete, otherwise one exactly when the trace reaches completion. -/
theorem countFinalize_eq (s : Store) (uid : Int) (tr : List MsgEvent) (u : User)
    (hu : get_user s uid = some u) :
    countFinalize s uid tr =
      if u.is_configured then 0
      else if confAt (runTrace s uid tr) uid then 1 else 0 := by
  induction tr generalizing s u with
  | nil =>
    by_cases hc : u.is_configured <;> simp [countFinalize, runTrace, confAt, hu, hc]
  | cons e rest ih =>
    have hstep := get_user_after_process e.env e.now s uid e.text u hu
    have hfin : (process_user_message e.env e.now s uid e.text).finalized =
        (!u.is_configured && (step_user e.env e.now e.text u).1.is_configured) := by
      rw [process_eq_step, hu]
      exact step_finalized_iff e.env e.now e.text u
    have hrest := ih _ _ hstep
    by_cases hc : u.is_configured
    · have hc' := step_preserves_configured e.env e.now e.text u hc
      simp [countFinalize, runTrace, hfin, hrest, hc, hc']
    · by_cases hc' : (step_user e.env e.now e.text u).1.is_configured
      · obtain ⟨u', hu', huc'⟩ := configured_runTrace_mono _ uid rest _ hstep hc'
        simp [countFinalize, runTrace, hfin, hrest, hc, hc', confAt, hu', huc']
      · simp [countFinalize, runTrace, hfin, hrest, hc, hc']

/-! ## History lemmas -/

@[simp]
theorem update_user_data_history (u : User) (d : Dict) :
    (update_user_data u d).conversation_history = u.conversation_history := rfl

@[simp]
theorem add_message_history (u : User) (t : String) (f : Bool) (n : Nat) :
    (u.add_message t f n).conversation_history =
      u.conversation_history ++ [⟨t, n, f⟩] := rfl

/-- One step appends exactly the inbound text (origin user) and then the
returned outbound text (origin system) to the record's history. -/
theorem step_user_history (env : LLMEnv) (now : Nat) (text : String) (u : User) :
    (step_user env now text u).1.conversation_history =
      u.conversation_history ++
        [⟨text, now, true⟩, ⟨(step_user env now text u).2.1, now, false⟩] := by
  by_cases hc : u.is_configured
  · simp [step_user, hc]
  · by_cases he : get_user_info_from_context env = []
    · simp [step_user, hc, he]
    · by_cases hc2 : (update_user_data (u.add_message text true now)
          (get_user_info_from_context env)).is_configured <;>
        simp [step_user, hc, he, hc2]

theorem traceResponses_length (s : Store) (uid : Int) (tr : List MsgEvent) :
    (traceResponses s uid tr).length = tr.length := by
  induction tr generalizing s with
  | nil => rfl
  | cons e rest ih => simp [traceResponses, ih]

theorem historyOf_length (tr : List MsgEvent) (rs : List String)
    (h : rs.length = tr.length) : (historyOf tr rs).length = 2 * tr.length := by
  induction tr generalizing rs with
  | nil => cases rs with
    | nil => rfl
    | cons r rs => simp at h
  | cons e rest ih =>
    cases rs with
    | nil => simp at h
    | cons r rs =>
      have := ih rs (by simpa using h)
      simp [historyOf, this]
      omega

/-- After a trace, the record's history is the old history plus the
alternating user/system entries, the system entries being exactly the
returned responses. -/
theorem runTrace_history (s : Store) (uid : Int) (tr : List MsgEvent) (u : User)
    (hu : get_user s uid = some u) :
    ∃ u', get_user (runTrace s uid tr) uid = some u' ∧
      u'.conversation_history =
        u.conversation_history ++ historyOf tr (traceResponses s uid tr) := by
  induction tr generalizing s u with
  | nil => exact ⟨u, hu, by simp [runTrace, historyOf, traceResponses]⟩
  | cons e rest ih =>
    have hstep := get_user_after_process e.env e.now s uid e.text u hu
    obtain ⟨u', hu', hh⟩ := ih _ _ hstep
    refine ⟨u', by simpa [runTrace] using hu', ?_⟩
    have hresp : (process_user_message e.env e.now s uid e.text).response =
        (step_user e.env e.now e.text u).2.1 := by
      rw [process_eq_step, hu]
    rw [hh, step_user_history]
    simp [traceResponses, historyOf, hresp, List.append_assoc]

/-! ## Response-shape and congruence lemmas -/

/-- `step_user` only consults the oracle through the parsed extraction and
the composed reply. -/
theorem step_user_congr (env env' : LLMEnv) (now : Nat) (text : String) (u : User)
    (h1 : get_user_info_from_context env = get_user_info_from_context env')
    (h2 : openai_process_user_message env = openai_process_user_message env') :
    step_user env now text u = step_user env' now text u := by
  simp [step_user, h1, h2]

/-- Every response of a step is either a completion confirmation or the
composed (possibly fallback) reply. -/
theorem step_response_mem (env : LLMEnv) (now : Nat) (text : String) (u : User) :
    (∃ v : User, (step_user env now text u).2.1 = complete_info_message v) ∨
    (step_user env now text u).2.1 = openai_process_user_message env := by
  by_cases hc : u.is_configured
  · exact Or.inl ⟨u, by simp [step_user, hc]⟩
  · by_cases he : get_user_info_from_context env = []
    · by_cases hc2 : (u.add_message text true now).is_configured
      · exact Or.inl ⟨u.add_message text true now, by simp [step_user, hc, he, hc2]⟩
      · exact Or.inr (by simp [step_user, hc, he, hc2])
    · by_cases hc2 : (update_user_data (u.add_message text true now)
          (get_user_info_from_context env)).is_configured
      · exact Or.inl ⟨update_user_data (u.add_message text true now)
          (get_user_info_from_context env), by simp [step_user, hc, he, hc2]⟩
      · exact Or.inr (by simp [step_user, hc, he, hc2])

/-- The completion confirmation text is never empty. -/
theorem complete_info_message_ne_empty (u : User) : complete_info_message u ≠ "" := by
  have hlen : 0 < (complete_info_message u).length := by
    simp only [complete_info_message, String.length_append]
    have h1 : 0 <
        ("Отлично! 🎉 Спасибо за предоставленную информацию, " : String).length := by
      decide
    omega
  intro h
  rw [h] at hlen
  simp at hlen

/-- The missing-record failure text is not empty. -/
theorem supportErrorMessage_ne_empty : supportErrorMessage ≠ "" := by decide

/-- The composition-failure apology is not empty. -/
theorem compositionErrorMessage_ne_empty : compositionErrorMessage ≠ "" := by decide

/-! ## Merge-policy lemmas -/

theorem applyField_overwrite (cur : Option String) (v : String) (hv : v ≠ "") :
    applyField cur (some v) = some v := by simp [applyField, hv]

theorem applyField_skip (cur x : Option String) (h : x = none ∨ x = some "") :
    applyField cur x = cur := by
  rcases h with h | h <;> simp [applyField, h]

theorem applyField_inv (cur x : Option String) (h : fieldInv cur) :
    fieldInv (applyField cur x) := by
  cases x with
  | none => exact h
  | some v =>
    by_cases hv : v = ""
    · simpa [applyField, hv] using h
    · intro w hw
      rw [applyField_overwrite cur v hv] at hw
      exact (Option.some_inj.mp hw) ▸ hv

theorem applyField_cases (cur x : Option String) :
    applyField cur x = cur ∨ ∃ v, v ≠ "" ∧ applyField cur x = some v := by
  cases x with
  | none => exact Or.inl rfl
  | some v =>
    by_cases hv : v = ""
    · exact Or.inl (by simp [applyField, hv])
    · exact Or.inr ⟨v, hv, applyField_overwrite cur v hv⟩

/-- One step either leaves each delivery field alone (complete record, or
nothing extracted) or applies the merge policy to all three. -/
theorem step_user_final_fields (env : LLMEnv) (now : Nat) (text : String) (u : User) :
    ((step_user env now text u).1.final_name = u.final_name ∧
     (step_user env now text u).1.final_city = u.final_city ∧
     (step_user env now text u).1.final_address = u.final_address) ∨
    ((step_user env now text u).1.final_name =
       applyField u.final_name (dictGet (get_user_info_from_context env) "name") ∧
     (step_user env now text u).1.final_city =
       applyField u.final_city (dictGet (get_user_info_from_context env) "city") ∧
     (step_user env now text u).1.final_address =
       applyField u.final_address (dictGet (get_user_info_from_context env) "address")) := by
  by_cases hc : u.is_configured
  · exact Or.inl (by simp [step_user, hc])
  · by_cases he : get_user_info_from_context env = []
    · exact Or.inl (by simp [step_user, hc, he])
    · by_cases hc2 : (update_user_data (u.add_message text true now)
          (get_user_info_from_context env)).is_configured
      · exact Or.inr (by simp [step_user, hc, he, hc2])
      · exact Or.inr (by simp [step_user, hc, he, hc2])

/-- One step preserves the fields invariant. -/
theorem step_preserves_fieldsInv (env : LLMEnv) (now : Nat) (text : String)
    (u : User) (h : userFieldsInv u) :
    userFieldsInv (step_user env now text u).1 := by
  obtain ⟨hn, hci, ha⟩ := h
  rcases step_user_final_fields env now text u with ⟨e1, e2, e3⟩ | ⟨e1, e2, e3⟩
  · exact ⟨e1 ▸ hn, e2 ▸ hci, e3 ▸ ha⟩
  · exact ⟨e1 ▸ applyField_inv _ _ hn, e2 ▸ applyField_inv _ _ hci,
      e3 ▸ applyField_inv _ _ ha⟩

/-- The fields invariant holds along any trace. -/
theorem fieldsInv_runTrace (s : Store) (uid : Int) (tr : List MsgEvent) (u : User)
    (hu : get_user s uid = some u) (hinv : userFieldsInv u) :
    ∃ u', get_user (runTrace s uid tr) uid = some u' ∧ userFieldsInv u' := by
  induction tr generalizing s u with
  | nil => exact ⟨u, hu, hinv⟩
  | cons e rest ih =>
    exact ih _ _ (get_user_after_process e.env e.now s uid e.text u hu)
      (step_preserves_fieldsInv e.env e.now e.text u hinv)

/-! ## Oracle-congruence and non-empty-reply lemmas -/

theorem parse_ai_response_empty : parse_ai_response "" = [] := rfl

/-- Message handling only consults the oracle through the parsed extraction
and the composed reply. -/
theorem process_congr (env env' : LLMEnv) (now : Nat) (s : Store) (uid : Int)
    (text : String)
    (h1 : get_user_info_from_context env = get_user_info_from_context env')
    (h2 : openai_process_user_message env = openai_process_user_message env') :
    process_user_message env now s uid text =
      process_user_message env' now s uid text := by
  rw [process_eq_step, process_eq_step]
  cases hu : get_user s uid with
  | none => rfl
  | some u => simp [step_user_congr env env' now text u h1 h2]

/-- When the composed reply (if any) is non-empty, the returned response is
non-empty in every branch. -/
theorem process_response_ne_empty (env : LLMEnv) (now : Nat) (s : Store)
    (uid : Int) (text : String)
    (hcomp : env.composition = none ∨ ∃ r, env.composition = some r ∧ r ≠ "") :
    (process_user_message env now s uid text).response ≠ "" := by
  cases hu : get_user s uid with
  | none =>
    have : (process_user_message env now s uid text).response = supportErrorMessage := by
      rw [process_eq_step, hu]
    rw [this]
    exact supportErrorMessage_ne_empty
  | some u =>
    have hr : (process_user_message env now s uid text).response =
        (step_user env now text u).2.1 := by
      rw [process_eq_step, hu]
    rw [hr]
    rcases step_response_mem env now text u with ⟨v, hv⟩ | hv
    · rw [hv]; exact complete_info_message_ne_empty v
    · rw [hv]
      rcases hcomp with h | ⟨r, hr', hne⟩
      · simp [openai_process_user_message, h, compositionErrorMessage_ne_empty]
      · simp [openai_process_user_message, hr', hne]

/-! ## Parse-shape lemmas for `_parse_ai_response` -/

theorem dictGet_parse_name (raw : String) :
    dictGet (parse_ai_response raw) "name" =
      if pyContains "<user_name>" raw then
        some (extractTag "<user_name>" "</user_name>" raw) else none := by
  by_cases h1 : pyContains "<user_name>" raw <;>
  by_cases h2 : pyContains "<user_city>" raw <;>
  by_cases h3 : pyContains "<user_address>" raw <;>
    simp [parse_ai_response, dictGet, h1, h2, h3]

theorem dictGet_parse_city (raw : String) :
    dictGet (parse_ai_response raw) "city" =
      if pyContains "<user_city>" raw then
        some (extractTag "<user_city>" "</user_city>" raw) else none := by
  by_cases h1 : pyContains "<user_name>" raw <;>
  by_cases h2 : pyContains "<user_city>" raw <;>
  by_cases h3 : pyContains "<user_address>" raw <;>
    simp [parse_ai_response, dictGet, h1, h2, h3]

theorem dictGet_parse_address (raw : String) :
    dictGet (parse_ai_response raw) "address" =
      if pyContains "<user_address>" raw then
        some (extractTag "<user_address>" "</user_address>" raw) else none := by
  by_cases h1 : pyContains "<user_name>" raw <;>
  by_cases h2 : pyContains "<user_city>" raw <;>
  by_cases h3 : pyContains "<user_address>" raw <;>
    simp [parse_ai_response, dictGet, h1, h2, h3]

/-! ## Claim theorems -/

/-- Claim C1, counterexample: contrary to the claim, the pipeline parse
(`_parse_ai_response`) does not trim tag bodies, and a whitespace-only body
is not discarded: parsing `<user_city>  </user_city>` yields a map that DOES
hold a city entry, bound to the whitespace-only body `"  "`. -/
theorem claim_C1_counterexample :
    dictGet (parse_ai_response "<user_city>  </user_city>") "city" = some "  " ∧
    pyStrip "  " = "" ∧ "  " ≠ "" := by decide

/-- Claim C1, amended: `_parse_ai_response` yields no entry for an absent
tag; for a present tag it yields the verbatim split-chain body with no
trimming, so an empty or whitespace-only body is kept (not treated as
"field not extracted"); the separate trimming parser
`BackendService.parse_user_data` strips bodies but still reports the key
(bound to `""`) for a whitespace-only body. -/
theorem claim_C1_amended_parse (raw : String) :
    (pyContains "<user_name>" raw = false →
       dictGet (parse_ai_response raw) "name" = none) ∧
    (pyContains "<user_city>" raw = false →
       dictGet (parse_ai_response raw) "city" = none) ∧
    (pyContains "<user_address>" raw = false →
       dictGet (parse_ai_response raw) "address" = none) ∧
    (pyContains "<user_city>" raw = true →
       dictGet (parse_ai_response raw) "city" =
         some (extractTag "<user_city>" "</user_city>" raw)) ∧
    dictGet (parse_ai_response "<user_city>  </user_city>") "city" = some "  " ∧
    (parse_user_data "<user_city>  </user_city>").city = some "" := by
  refine ⟨?_, ?_, ?_, ?_, by decide, by decide⟩
  · intro h; rw [dictGet_parse_name, h]; simp
  · intro h; rw [dictGet_parse_city, h]; simp
  · intro h; rw [dictGet_parse_address, h]; simp
  · intro h; rw [dictGet_parse_city, h]; simp

/-- Witness for `claim_C1_amended_parse` at concrete raw outputs. -/
theorem claim_C1_witness :
    dictGet (parse_ai_response "<user_name>Anna</user_name>") "city" = none ∧
    dictGet (parse_ai_response "<user_city>Oslo</user_city>") "city" = some "Oslo" := by
  constructor
  · exact (claim_C1_amended_parse "<user_name>Anna</user_name>").2.1 (by decide)
  · have h := (claim_C1_amended_parse "<user_city>Oslo</user_city>").2.2.2.1 (by decide)
    rw [h]; decide

/-- Claim C3: once a record is complete, processing any further messages
leaves it complete — the message-handling flow never transitions a record
back to incomplete. -/
theorem claim_C3_monotonic (s : Store) (uid : Int) (u : User)
    (hu : get_user s uid = some u) (hc : u.is_configured = true)
    (tr : List MsgEvent) :
    ∃ u', get_user (runTrace s uid tr) uid = some u' ∧ u'.is_configured = true :=
  configured_runTrace_mono s uid tr u hu hc

/-- Witness for `claim_C3_monotonic`: a complete record stays complete over a
two-message trace, one of whose extraction calls fails. -/
theorem claim_C3_witness :
    ∃ u', get_user (runTrace [(1, completeAnna)] 1
        [⟨envFail, 5, "hi"⟩, ⟨envNoTags, 6, "more"⟩]) 1 = some u' ∧
      u'.is_configured = true :=
  claim_C3_monotonic [(1, completeAnna)] 1 completeAnna (by decide) (by decide) _

/-- Claim C4: the merge of extracted fields into known fields is
non-destructive and last-write-wins: per key, a non-empty extracted value
overwrites, a missing or empty value leaves the stored value untouched, and
the merge never unsets a set field. -/
theorem claim_C4_merge_policy (u : User) (d : Dict) :
    ((∀ v, dictGet d "name" = some v → v ≠ "" →
        (update_user_data u d).final_name = some v) ∧
     ((dictGet d "name" = none ∨ dictGet d "name" = some "") →
        (update_user_data u d).final_name = u.final_name) ∧
     (u.final_name ≠ none → (update_user_data u d).final_name ≠ none)) ∧
    ((∀ v, dictGet d "city" = some v → v ≠ "" →
        (update_user_data u d).final_city = some v) ∧
     ((dictGet d "city" = none ∨ dictGet d "city" = some "") →
        (update_user_data u d).final_city = u.final_city) ∧
     (u.final_city ≠ none → (update_user_data u d).final_city ≠ none)) ∧
    ((∀ v, dictGet d "address" = some v → v ≠ "" →
        (update_user_data u d).final_address = some v) ∧
     ((dictGet d "address" = none ∨ dictGet d "address" = some "") →
        (update_user_data u d).final_address = u.final_address) ∧
     (u.final_address ≠ none → (update_user_data u d).final_address ≠ none)) := by
  refine ⟨⟨?_, ?_, ?_⟩, ⟨?_, ?_, ?_⟩, ⟨?_, ?_, ?_⟩⟩
  · intro v hv hne; rw [update_user_data_final_name, hv, applyField_overwrite _ _ hne]
  · intro h; rw [update_user_data_final_name, applyField_skip _ _ h]
  · intro h; rw [update_user_data_final_name]; exact applyField_ne_none _ _ h
  · intro v hv hne; rw [update_user_data_final_city, hv, applyField_overwrite _ _ hne]
  · intro h; rw [update_user_data_final_city, applyField_skip _ _ h]
  · intro h; rw [update_user_data_final_city]; exact applyField_ne_none _ _ h
  · intro v hv hne; rw [update_user_data_final_address, hv, applyField_overwrite _ _ hne]
  · intro h; rw [update_user_data_final_address, applyField_skip _ _ h]
  · intro h; rw [update_user_data_final_address]; exact applyField_ne_none _ _ h

/-- Witness for `claim_C4_merge_policy`: a truthy name overwrites, an empty city
value leaves the city untouched, and a set address is never unset. -/
theorem claim_C4_witness :
    (update_user_data completeAnna mergeDict).final_name = some "Bob" ∧
    (update_user_data completeAnna mergeDict).final_city = completeAnna.final_city ∧
    (update_user_data completeAnna mergeDict).final_address ≠ none := by
  refine ⟨(claim_C4_merge_policy completeAnna mergeDict).1.1 "Bob" (by decide) (by decide),
    (claim_C4_merge_policy completeAnna mergeDict).2.1.2.1 (Or.inr (by decide)),
    (claim_C4_merge_policy completeAnna mergeDict).2.2.2.2 (by decide)⟩

/-- Claim C10: `update_user_data` modifies at most the three delivery fields:
identity attributes, conversation history and both timestamps are untouched,
and the result depends on the update map only through the keys `name`,
`city`, `address` (all other keys are ignored). -/
theorem claim_C10_update_frame (u : User) (d d' : Dict) :
    ((update_user_data u d).id = u.id ∧
     (update_user_data u d).username = u.username ∧
     (update_user_data u d).first_name = u.first_name ∧
     (update_user_data u d).last_name = u.last_name ∧
     (update_user_data u d).language_code = u.language_code ∧
     (update_user_data u d).is_bot = u.is_bot ∧
     (update_user_data u d).conversation_history = u.conversation_history ∧
     (update_user_data u d).created_at = u.created_at ∧
     (update_user_data u d).last_interaction = u.last_interaction) ∧
    (dictGet d "name" = dictGet d' "name" →
     dictGet d "city" = dictGet d' "city" →
     dictGet d "address" = dictGet d' "address" →
     update_user_data u d = update_user_data u d') := by
  refine ⟨⟨rfl, rfl, rfl, rfl, rfl, rfl, rfl, rfl, rfl⟩, ?_⟩
  intro h1 h2 h3
  simp [update_user_data, h1, h2, h3]

/-- Witness for `claim_C10_update_frame`: two maps agreeing on the three
recognized keys but differing on a foreign key produce the same update. -/
theorem claim_C10_witness :
    update_user_data completeAnna mergeDict =
      update_user_data completeAnna mergeDict2 :=
  (claim_C10_update_frame completeAnna mergeDict mergeDict2).2
    (by decide) (by decide) (by decide)

/-- Claim C2: the finalize hand-off fires exactly once per record — a step
fires it iff the record was incomplete before the step and complete after it,
and over any trace the total count is 1 when the (initially incomplete)
record ends complete, 0 otherwise; in particular it never fires again once
the record is complete. -/
theorem claim_C2_finalize_once (s : Store) (uid : Int) (u : User)
    (hu : get_user s uid = some u) :
    (∀ env now text,
        (process_user_message env now s uid text).finalized =
          (!u.is_configured &&
            confAt (process_user_message env now s uid text).store uid)) ∧
    ∀ tr : List MsgEvent,
      countFinalize s uid tr =
        if u.is_configured then 0
        else if confAt (runTrace s uid tr) uid then 1 else 0 := by
  constructor
  · intro env now text
    have h1 := get_user_after_process env now s uid text u hu
    have h2 : (process_user_message env now s uid text).finalized =
        (!u.is_configured && (step_user env now text u).1.is_configured) := by
      rw [process_eq_step, hu]
      exact step_finalized_iff env now text u
    rw [h2]
    simp [confAt, h1]
  · intro tr
    exact countFinalize_eq s uid tr u hu

/-- Witness for `claim_C2_finalize_once`: over the three-message sample trace that
completes the record on its second message, finalize fires exactly once. -/
theorem claim_C2_witness :
    countFinalize [(1, freshAnna)] 1 sampleTrace = 1 := by
  rw [(claim_C2_finalize_once [(1, freshAnna)] 1 freshAnna (by decide)).2 sampleTrace]
  decide

/-- Claim C5, counterexample: the claimed invariant "each stored field is
unset or non-whitespace-only" fails — feeding the whitespace-only extraction
`<user_city>  </user_city>` through one message step stores the
whitespace-only city `"  "` (the untrimmed truthy body overwrites). -/
theorem claim_C5_counterexample :
    (get_user (process_user_message envCitySpaces 1 [(1, freshAnna)] 1 "hi").store 1).map
        User.final_city = some (some "  ") ∧
    pyStrip "  " = "" ∧ "  " ≠ "" := by decide

/-- Claim C5, amended: after any sequence of message-handling operations each
stored field is unset or a non-empty string (possibly whitespace-only, since
extracted values are not trimmed), and per step each field is either left
untouched or replaced by a non-empty extracted value — never cleared. -/
theorem claim_C5_amended_invariant (s : Store) (uid : Int) (u : User)
    (hu : get_user s uid = some u) (hinv : userFieldsInv u) :
    (∀ tr, ∃ u', get_user (runTrace s uid tr) uid = some u' ∧ userFieldsInv u') ∧
    (∀ env now text,
       ((step_user env now text u).1.final_name = u.final_name ∨
         ∃ v, v ≠ "" ∧ (step_user env now text u).1.final_name = some v) ∧
       ((step_user env now text u).1.final_city = u.final_city ∨
         ∃ v, v ≠ "" ∧ (step_user env now text u).1.final_city = some v) ∧
       ((step_user env now text u).1.final_address = u.final_address ∨
         ∃ v, v ≠ "" ∧ (step_user env now text u).1.final_address = some v)) := by
  constructor
  · intro tr
    exact fieldsInv_runTrace s uid tr u hu hinv
  · intro env now text
    rcases step_user_final_fields env now text u with ⟨e1, e2, e3⟩ | ⟨e1, e2, e3⟩
    · exact ⟨Or.inl e1, Or.inl e2, Or.inl e3⟩
    · refine ⟨?_, ?_, ?_⟩
      · rcases applyField_cases u.final_name
            (dictGet (get_user_info_from_context env) "name") with h | ⟨v, hv, h⟩
        · exact Or.inl (e1.trans h)
        · exact Or.inr ⟨v, hv, e1.trans h⟩
      · rcases applyField_cases u.final_city
            (dictGet (get_user_info_from_context env) "city") with h | ⟨v, hv, h⟩
        · exact Or.inl (e2.trans h)
        · exact Or.inr ⟨v, hv, e2.trans h⟩
      · rcases applyField_cases u.final_address
            (dictGet (get_user_info_from_context env) "address") with h | ⟨v, hv, h⟩
        · exact Or.inl (e3.trans h)
        · exact Or.inr ⟨v, hv, e3.trans h⟩

/-- Witness for `claim_C5_amended_invariant`: the amended invariant holds after the
sample trace from a fresh record. -/
theorem claim_C5_witness :
    ∃ u', get_user (runTrace [(1, freshAnna)] 1 sampleTrace) 1 = some u' ∧
      userFieldsInv u' :=
  (claim_C5_amended_invariant [(1, freshAnna)] 1 freshAnna (by decide)
    (by refine ⟨?_, ?_, ?_⟩ <;> intro v h <;> simp [freshAnna, create_user] at h)).1
    sampleTrace

/-- Claim C6: for an existing record, a trace of N inbound messages appends
exactly 2N history entries — per message the user text (origin user) then the
returned outbound text (origin system), in submission order — so history
records exactly what was sent. -/
theorem claim_C6_history_order (s : Store) (uid : Int) (u : User) (tr : List MsgEvent)
    (hu : get_user s uid = some u) :
    ∃ u', get_user (runTrace s uid tr) uid = some u' ∧
      u'.conversation_history =
        u.conversation_history ++ historyOf tr (traceResponses s uid tr) ∧
      (historyOf tr (traceResponses s uid tr)).length = 2 * tr.length := by
  obtain ⟨u', h1, h2⟩ := runTrace_history s uid tr u hu
  exact ⟨u', h1, h2, historyOf_length tr _ (traceResponses_length s uid tr)⟩

/-- Witness for `claim_C6_history_order` on the three-message sample trace. -/
theorem claim_C6_witness :
    ∃ u', get_user (runTrace [(1, freshAnna)] 1 sampleTrace) 1 = some u' ∧
      u'.conversation_history =
        freshAnna.conversation_history ++
          historyOf sampleTrace (traceResponses [(1, freshAnna)] 1 sampleTrace) ∧
      (historyOf sampleTrace (traceResponses [(1, freshAnna)] 1 sampleTrace)).length =
        2 * sampleTrace.length :=
  claim_C6_history_order [(1, freshAnna)] 1 freshAnna sampleTrace (by decide)

/-- Claim C7: extraction is fail-open and reply composition fail-safe: an
extraction error makes handling behave exactly as if zero fields were
extracted; whenever the composition call errors — i.e. for every oracle whose
composition outcome is a failure, whatever the extraction outcome — and the
merge leaves the record incomplete (the only situation in which the code
consults composition), the fixed apology is returned; with the external
reply non-empty when present, the returned reply is non-empty; handling is a
total function, so no error propagates to the caller. -/
theorem claim_C7_fail_open (now : Nat) (s : Store) (uid : Int) (text : String) :
    (∀ c, process_user_message ⟨none, c⟩ now s uid text =
        process_user_message ⟨some "", c⟩ now s uid text) ∧
    (∀ env : LLMEnv, ∀ u, get_user s uid = some u → env.composition = none →
        (update_user_data u (get_user_info_from_context env)).is_configured = false →
        (process_user_message env now s uid text).response =
          compositionErrorMessage) ∧
    compositionErrorMessage ≠ "" ∧
    (∀ env : LLMEnv, env.extraction = none →
        (env.composition = none ∨ ∃ r, env.composition = some r ∧ r ≠ "") →
        (process_user_message env now s uid text).response ≠ "") := by
  refine ⟨?_, ?_, compositionErrorMessage_ne_empty, ?_⟩
  · intro c
    exact process_congr _ _ now s uid text rfl rfl
  · intro env u hu hcomp hnc
    have hcu : u.is_configured = false := by
      by_contra hcc
      rw [Bool.not_eq_false] at hcc
      rw [update_preserves_configured u _ hcc] at hnc
      exact absurd hnc (by simp)
    have hr : (process_user_message env now s uid text).response =
        (step_user env now text u).2.1 := by
      rw [process_eq_step, hu]
    rw [hr]
    by_cases he : get_user_info_from_context env = []
    · simp [step_user, hcu, he, openai_process_user_message, hcomp]
    · have h2 : (update_user_data (u.add_message text true now)
          (get_user_info_from_context env)).is_configured = false := by
        rw [update_add_message_is_configured]
        exact hnc
      simp [step_user, hcu, he, h2, openai_process_user_message, hcomp]
  · intro env hex hcomp
    exact process_response_ne_empty env now s uid text hcomp

/-- Witness for `claim_C7_fail_open`: on a fresh record, a failed extraction
behaves like an empty extraction, and a failed composition after a
*successful* extraction (which finds the name but leaves the record
incomplete) yields the fixed apology. -/
theorem claim_C7_witness :
    process_user_message ⟨none, some "hello"⟩ 1 [(1, freshAnna)] 1 "hi" =
      process_user_message ⟨some "", some "hello"⟩ 1 [(1, freshAnna)] 1 "hi" ∧
    (process_user_message ⟨some "<user_name>Anna</user_name>", none⟩ 1
        [(1, freshAnna)] 1 "hi").response = compositionErrorMessage :=
  ⟨(claim_C7_fail_open 1 [(1, freshAnna)] 1 "hi").1 (some "hello"),
   (claim_C7_fail_open 1 [(1, freshAnna)] 1 "hi").2.1
     ⟨some "<user_name>Anna</user_name>", none⟩ freshAnna (by decide) rfl (by decide)⟩

/-- Claim C8: a missing session yields the generic non-technical failure
message, leaves the store unchanged and fires no finalize; and in every
failure branch (missing record, failed composition) the returned reply is
non-empty — no silent drops. -/
theorem claim_C8_session_missing (env : LLMEnv) (now : Nat) (s : Store) (uid : Int)
    (text : String) :
    (get_user s uid = none →
       process_user_message env now s uid text =
         ⟨s, supportErrorMessage, false⟩) ∧
    supportErrorMessage ≠ "" ∧
    ((env.composition = none ∨ ∃ r, env.composition = some r ∧ r ≠ "") →
       (process_user_message env now s uid text).response ≠ "") := by
  refine ⟨?_, supportErrorMessage_ne_empty, ?_⟩
  · intro h
    rw [process_eq_step, h]
  · intro hcomp
    exact process_response_ne_empty env now s uid text hcomp

/-- Witness for `claim_C8_session_missing`: an unknown session id returns the
support message without touching the store; with a failed composition the
reply is still non-empty. -/
theorem claim_C8_witness :
    process_user_message envNoTags 7 [(1, freshAnna)] 99 "hello" =
      ⟨[(1, freshAnna)], supportErrorMessage, false⟩ ∧
    (process_user_message envFail 7 [(1, freshAnna)] 99 "hello").response ≠ "" :=
  ⟨(claim_C8_session_missing envNoTags 7 [(1, freshAnna)] 99 "hello").1 (by decide),
   (claim_C8_session_missing envFail 7 [(1, freshAnna)] 99 "hello").2.2 (Or.inl rfl)⟩

/-- Claim C9: `get_or_create_user` returns the stored record with only its
identity refreshed from the supplied Telegram value — delivery fields,
history and creation timestamp unchanged — or, when absent, a fresh record
with all fields unset and empty history; the result is stored under the id
and the operation is total. -/
theorem claim_C9_get_or_create (s : Store) (t : TelegramUser) (now : Nat) :
    (∀ u, get_user s t.id = some u →
       (get_or_create_user s t now).2 = u.update_from_telegram t now ∧
       (get_or_create_user s t now).2.final_name = u.final_name ∧
       (get_or_create_user s t now).2.final_city = u.final_city ∧
       (get_or_create_user s t now).2.final_address = u.final_address ∧
       (get_or_create_user s t now).2.conversation_history = u.conversation_history ∧
       (get_or_create_user s t now).2.created_at = u.created_at ∧
       (get_or_create_user s t now).2.username = t.username ∧
       (get_or_create_user s t now).2.first_name = t.first_name ∧
       (get_or_create_user s t now).2.last_name = t.last_name ∧
       (get_or_create_user s t now).2.language_code = t.language_code ∧
       (get_or_create_user s t now).2.is_bot = t.is_bot ∧
       get_user (get_or_create_user s t now).1 t.id =
         some (get_or_create_user s t now).2) ∧
    (get_user s t.id = none →
       (get_or_create_user s t now).2.final_name = none ∧
       (get_or_create_user s t now).2.final_city = none ∧
       (get_or_create_user s t now).2.final_address = none ∧
       (get_or_create_user s t now).2.conversation_history = [] ∧
       get_user (get_or_create_user s t now).1 t.id =
         some (get_or_create_user s t now).2) := by
  constructor
  · intro u hu
    simp [get_or_create_user, hu, User.update_from_telegram, get_store_set_same]
  · intro h
    simp [get_or_create_user, h, create_user, get_store_set_same]

/-- Witness for `claim_C9_get_or_create`: refreshing an existing record keeps its
city and takes the new username; creating from an empty store yields an
empty history. -/
theorem claim_C9_witness :
    (get_or_create_user [(1, completeAnna)] annaTg2 9).2.final_city =
      completeAnna.final_city ∧
    (get_or_create_user [(1, completeAnna)] annaTg2 9).2.username = annaTg2.username ∧
    (get_or_create_user [] annaTg 9).2.conversation_history = [] := by
  refine ⟨?_, ?_, ?_⟩
  · exact ((claim_C9_get_or_create [(1, completeAnna)] annaTg2 9).1 completeAnna
      (by decide)).2.2.1
  · exact ((claim_C9_get_or_create [(1, completeAnna)] annaTg2 9).1 completeAnna
      (by decide)).2.2.2.2.2.2.1
  · exact ((claim_C9_get_or_create [] annaTg 9).2 (by decide)).2.2.2.1

end SweetBot
